import Mathlib

/-
Verification development for the Violet execution engine
(src/violet/runner.py).  The engine's data model — scopes with mutable and
const bindings, tagged runtime values, per-function return state — and its
operations (variable lookup, declaration, reassignment, statement dispatch,
the call protocol, the two import forms, the program driver) are embedded
as executable Lean definitions, and the behavioural claims about them are
settled as theorems below the definitions.

Conventions of the embedding:
- Python dictionaries keyed by `ast.Identifier` become association lists
  keyed by `String` (Identifier hashes and compares by name only).
- Python exceptions become the `Err` inductive; a function that can raise
  returns `Except Err ...`.  `sys.exit(n)` is `Err.exitCode n` (a
  `SystemExit`, which `except Exception` clauses do not catch).
- In-place mutation becomes explicit state passing.  Where the source
  raises strictly before it mutates, the Lean function returns `.error`
  and the caller keeps the unchanged state, which coincides with the
  Python heap.  The import loops, which do mutate the importing scope
  before they can raise, instead return the final scope next to the
  optional error.
- `objects.ThinPythonObjectWrapper` is modelled as the unpromoted host
  value itself (`RVal.py`): the wrapper is a thin identity box around a
  host-native literal awaiting promotion.
- Code of the repository that lives outside src/ (the `objects` and
  `vast` collaborators, the std-library modules) is modelled from the
  spec where a claim needs it; each such definition says so in its doc
  comment.
-/

namespace Violet

/-- Runtime type tags: the classes of the `objects` hierarchy that values
carry (`Integer`, `String`, `Boolean`, `List`, `Void`, `Function`), plus
the class of the built-in type objects themselves. -/
inductive Tag where
  | integer
  | string
  | boolean
  | list
  | void
  | function
  | typeclass
deriving DecidableEq, Repr

/-- Python class name of a tag, as `__class__.__name__` yields it. -/
def Tag.name : Tag → String
  | .integer => "Integer"
  | .string => "String"
  | .boolean => "Boolean"
  | .list => "List"
  | .void => "Void"
  | .function => "Function"
  | .typeclass => "Type"

/-- Host-native (Python) values awaiting promotion: the key set of
`_PY_TYPES` in runner.py (`int`, `str`, `NoneType`, `list`). -/
inductive PyVal where
  | vint (n : Int)
  | vstr (s : String)
  | vnone
  | vlist (elems : List PyVal)

/-- Python class name of a host-native value. -/
def PyVal.className : PyVal → String
  | .vint _ => "int"
  | .vstr _ => "str"
  | .vnone => "NoneType"
  | .vlist _ => "list"

/-- Instances of the engine's `objects.Object` hierarchy.  `func` holds an
index into the run state's store of function objects (function objects
carry mutable per-function fields, so they live in a store and values
reference them).  `typeObj` is a built-in type object, the kind of value
`_STD_TYPES` lookup yields. -/
inductive Value where
  | integer (n : Int)
  | string (s : String)
  | boolean (b : Bool)
  | list (elems : List Value)
  | void
  | func (idx : Nat)
  | typeObj (t : Tag)

/-- Type tag of an object, as `get_type()` yields it. -/
def Value.getType : Value → Tag
  | .integer _ => .integer
  | .string _ => .string
  | .boolean _ => .boolean
  | .list _ => .list
  | .void => .void
  | .func _ => .function
  | .typeObj _ => .typeclass

/-- Python class name of an object (`__class__.__name__`). -/
def Value.className (v : Value) : String := v.getType.name

/-- A runtime value as the engine passes it around: either an instance of
the `objects.Object` hierarchy or a host-native value (the latter covers
`objects.ThinPythonObjectWrapper`, modelled as the boxed value itself). -/
inductive RVal where
  | obj (v : Value)
  | py (p : PyVal)

/-- Python class name of a runtime value. -/
def RVal.className : RVal → String
  | .obj v => v.className
  | .py p => p.className

/-- Errors and exits of the engine.  Each constructor names the Python
exception it stands for.  `stmtError` is `errors.StatementError`: the
source builds it from the offending statement and the stringified cause;
the embedding keeps the cause itself (the message is a function of it).
`exitCode` is `sys.exit` (`SystemExit`, not caught by `except Exception`).
`fuelOut` is an artifact of the embedding's fuel, not a Python error. -/
inductive Err where
  | varNotFound (name : String)
  | cannotReassignConst (name : String)
  | keyError (name : String)
  | typeMismatch (expected got : String)
  | pyNameError (name : String)
  | pyTypeError (msg : String)
  | notDefined (name : String)
  | moduleNotExist (name : String)
  | failedImport (name modname : String)
  | unexpectedStatement (kind : String)
  | stmtError (cause : Err)
  | exitCode (n : Nat)
  | fuelOut
deriving DecidableEq, Repr

/-- Whether an error is a `StatementError`. -/
def Err.isStmtError : Err → Bool
  | .stmtError _ => true
  | _ => false

/-- Whether an error is a `SystemExit`. -/
def Err.isExitCode : Err → Bool
  | .exitCode _ => true
  | _ => false

/-- Association-list lookup, the embedding of `dict.get` (scope
dictionaries key by identifier name). -/
def lookupA {α : Type} : List (String × α) → String → Option α
  | [], _ => none
  | (k, v) :: rest, key => if k = key then some v else lookupA rest key

/-- Association-list insertion, the embedding of `dict[key] = value`:
replaces the existing entry or appends a new one. -/
def insertA {α : Type} : List (String × α) → String → α → List (String × α)
  | [], key, value => [(key, value)]
  | (k, v) :: rest, key, value =>
    if k = key then (k, value) :: rest else (k, v) :: insertA rest key value

/-- The fixed built-in type names of runner.py's `_STD_TYPES`, mapped to
the type objects they denote. -/
def _STD_TYPES : List (String × Tag) :=
  [("nil", .void), ("List", .list), ("String", .string),
   ("Void", .void), ("Integer", .integer), ("Boolean", .boolean)]

/-- The module-level names of runner.py (its imports and top-level
definitions): the global namespace against which a name inside one of its
functions resolves after the local namespace misses. -/
def runnerGlobalNames : List String :=
  ["contextlib", "hashlib", "importlib", "re", "os", "pprint", "sys",
   "types", "subprocess", "lexer", "parser", "ast", "errors",
   "StatementError", "objects", "IndexableNamespace", "_STD_TYPES",
   "_PY_TYPES", "_print", "print", "VarNotFound", "CannotReassignConst",
   "Scope", "Runner"]

/-- Promotion of a host-native value through the `_PY_TYPES` constructor
table, were the constructor call reached (`int` to `Integer`, `str` to
`String`, `NoneType` to `Void`, `list` to `List.from_value0`, taken to
promote the elements). -/
def promotePy : PyVal → Value
  | .vint n => .integer n
  | .vstr s => .string s
  | .vnone => .void
  | .vlist elems => .list (elems.attach.map fun p => promotePy p.1)
decreasing_by
  have h := List.sizeOf_lt_of_mem p.2
  simp only [PyVal.vlist.sizeOf_spec]
  omega

/-- Parameter names of `Runner.wrap_py_type`: it is a `@staticmethod`, so
its only parameter is `value` — it receives no `self`. -/
def wrapPyTypeParams : List String := ["value"]

/-- `Runner.wrap_py_type` (runner.py lines 120-122), a staticmethod whose
body is `return _PY_TYPES[type(value)](value, runner=self)`.  Python
evaluates the call's arguments after the table lookup; evaluating the
name `self` resolves it against the local names (the parameter `value`
only) and then runner.py's module globals, and it is in neither, so the
call raises `NameError` before any promotion happens. -/
def wrap_py_type (value : PyVal) : Except Err Value :=
  if "self" ∈ wrapPyTypeParams ∨ "self" ∈ runnerGlobalNames then
    .ok (promotePy value)
  else
    .error (.pyNameError "self")

/-- Modelled from the spec: `ast.TypeId.type_check` lives in the `vast`
collaborator, which is not under src/.  Per the spec's value/type
collaborator contract it checks the evaluated value against the named
type and fails with a descriptive mismatch error.  `Scope.reassign_var`
builds the `TypeId` from the original value's `__class__.__name__`, so
the check compares class names. -/
def typeIdCheck (typeName : String) (value : RVal) : Except Err Unit :=
  if value.className = typeName then .ok () else
    .error (.typeMismatch typeName value.className)

/-- Modelled from the spec: the `type_check` capability of a built-in type
object (the `objects` collaborator is not under src/).  It compares the
type tag of the value against the type's own tag and fails with a
mismatch error on divergence; a host-native value is not an instance of
the hierarchy and never matches. -/
def Tag.type_check (t : Tag) (value : RVal) : Except Err Unit :=
  match value with
  | .obj v => if v.getType = t then .ok () else .error (.typeMismatch t.name v.className)
  | .py p => .error (.typeMismatch t.name p.className)

/-- An environment (`Scope` in runner.py): two dictionaries of bindings —
mutable `vars` and write-once `const_vars` — and an optional parent.
(The source also stores a pointer to the runner and a random hash used as
the key in the runner's scope registry; neither carries behaviour.) -/
inductive Scope where
  | mk (vars : List (String × RVal)) (const_vars : List (String × RVal))
       (parent : Option Scope)

/-- Mutable bindings of a scope. -/
def Scope.vars : Scope → List (String × RVal)
  | .mk v _ _ => v

/-- Const bindings of a scope. -/
def Scope.const_vars : Scope → List (String × RVal)
  | .mk _ c _ => c

/-- Parent of a scope. -/
def Scope.parent : Scope → Option Scope
  | .mk _ _ p => p

/-- `Scope.is_var_assigned` (runner.py lines 62-67): the identifier is in
the local mutable or const dictionary, or names a built-in type, or —
when `recurse` — is assigned in the parent chain. -/
def Scope.is_var_assigned (s : Scope) (identifier : String) (recurse : Bool) : Bool :=
  match s with
  | .mk vars const_vars parent =>
    (lookupA vars identifier).isSome ||
    (lookupA const_vars identifier).isSome ||
    (lookupA _STD_TYPES identifier).isSome ||
    (recurse && (match parent with
                 | some p => p.is_var_assigned identifier true
                 | none => false))

/-- `Scope.get_var` (runner.py lines 72-86): built-in type names resolve
first, then the local mutable dictionary, then the local const
dictionary; a local miss delegates to the parent, and the scope with no
parent raises `VarNotFound`. -/
def Scope.get_var (s : Scope) (identifier : String) : Except Err RVal :=
  match s with
  | .mk vars const_vars parent =>
    match lookupA _STD_TYPES identifier with
    | some t => .ok (.obj (.typeObj t))
    | none =>
      match lookupA vars identifier with
      | some v => .ok v
      | none =>
        match lookupA const_vars identifier with
        | some v => .ok v
        | none =>
          match parent with
          | some p => p.get_var identifier
          | none => .error (.varNotFound identifier)

/-- `Scope.reassign_var` (runner.py lines 88-94): raises
`CannotReassignConst` if the identifier is in the local const dictionary;
otherwise reads `self.vars[identifier]` — a plain subscript, so an
identifier absent from the local mutable dictionary raises `KeyError`
(no delegation to the parent) — type-checks the new value against the
original value's class name, and only then replaces the local entry. -/
def Scope.reassign_var (s : Scope) (identifier : String) (value : RVal) : Except Err Scope :=
  match s with
  | .mk vars const_vars parent =>
    if (lookupA const_vars identifier).isSome then
      .error (.cannotReassignConst identifier)
    else
      match lookupA vars identifier with
      | none => .error (.keyError identifier)
      | some orig =>
        match typeIdCheck orig.className value with
        | .error e => .error e
        | .ok _ => .ok (.mk (insertA vars identifier value) const_vars parent)

/-- `Scope.set_var` (runner.py lines 96-108): a value that is not an
`Object` or a wrapper is boxed (here: kept as the host value, see the
wrapper convention above); a name already visible locally or as a
built-in only triggers a printed shadowing warning (not modelled); the
value is then inserted into the const or the mutable dictionary according
to the flag — without touching the other dictionary. -/
def Scope.set_var (s : Scope) (identifier : String) (value : RVal) (const : Bool) : Scope :=
  match s with
  | .mk vars const_vars parent =>
    if const then .mk vars (insertA const_vars identifier value) parent
    else .mk (insertA vars identifier value) const_vars parent

/-- Binary operators of the modelled expression language. -/
inductive BinOp where
  | add
  | sub
  | mul
  | eq
deriving DecidableEq, Repr

/-- Expressions, as the parser collaborator delivers them: literals
(`ast.Primitive`), identifier references, binary operations and function
calls.  Only the node kinds the engine's claims exercise are modelled. -/
inductive Expr where
  | intLit (n : Int)
  | strLit (s : String)
  | boolLit (b : Bool)
  | ident (name : String)
  | bin (op : BinOp) (a b : Expr)
  | call (fname : String) (args : List Expr)

/-- Statements, as the dispatcher receives them.  `assignment` is
`ast.Assignment` (declaration; the source also carries a `global_scope`
modifier that routes the binding to the root environment — no modelled
statement uses it), `reassignment` is `ast.Reassignment`, `ret` is
`ast.Return`, `functionCall` a bare-call statement, `control` an
`ast.Control` conditional, `function` an `ast.Function` declaration, and
the two import forms are the two shapes `Runner._exec_import` dispatches
between (the source tells them apart by the `from_module` node). -/
inductive Stmt where
  | assignment (identifier : String) (constant : Bool) (tyAnn : Option Tag) (expression : Expr)
  | reassignment (identifier : String) (expression : Expr)
  | ret (expr : Option Expr)
  | functionCall (e : Expr)
  | control (cond : Expr) (body : List Stmt)
  | function (name : String) (params : List String) (body : List Stmt)
  | importStd (modname : String) (importing : List String)
  | importLocal (modname : String) (importing : List String)

/-- Python class name of a statement node, used in the dispatcher's
`unexpected ... statement` messages. -/
def Stmt.kindName : Stmt → String
  | .assignment .. => "Assignment"
  | .reassignment .. => "Reassignment"
  | .ret _ => "Return"
  | .functionCall _ => "FunctionCall"
  | .control .. => "Control"
  | .function .. => "Function"
  | .importStd .. => "Import"
  | .importLocal .. => "Import"

/-- A function object (`objects.Function`): the parameter list and body
fixed at declaration, plus the three mutable fields the source stores on
the function object itself and `Runner.exec_function_body` /
`Runner._exec_return` read and write: the lazily inferred return type
`return_type`, the most recent return value `_return`, and the return
flag `_return_flag`.  Because these fields live on the one shared object,
function objects sit in a store (`St.funcs`) and values reference them by
index. -/
structure FuncObj where
  params : List String
  body : List Stmt
  return_type : Option Tag
  _return : Option RVal
  _return_flag : Bool

/-- Mutable run state of one engine instance: the store of function
objects.  (The source's registry of scopes keyed by random hashes and its
`active_scope` key are represented by passing the current `Scope` value
directly.) -/
structure St where
  funcs : List FuncObj

/-- Function object at an index of the store. -/
def St.getFunc (st : St) (i : Nat) : Option FuncObj :=
  st.funcs.get? i

/-- Store with the function object at an index replaced. -/
def St.modifyFunc (st : St) (i : Nat) (f : FuncObj → FuncObj) : St :=
  match st.funcs.get? i with
  | none => st
  | some fo => ⟨st.funcs.set i (f fo)⟩

/-- External collaborators of one engine run: the host-registered
namespace of std-library modules (module path to exports, modelled from
the spec's standard-library collaborator) and the file system of local
`.vi` sources, already parsed to statement lists. -/
structure Ctx where
  stdlib : List (String × List (String × RVal))
  files : List (String × List Stmt)

/-- Inference step of `Runner._exec_return` once the (possibly promoted)
return value is an object: `func.return_type = ret.get_type()`, then
`func.return_type.type_check(ret, self)`, then `func._return = ret`. -/
def inferReturn (func : FuncObj) (v : Value) : Except Err FuncObj :=
  match (Value.getType v).type_check (.obj v) with
  | .error e => .error e
  | .ok _ => .ok { func with return_type := some v.getType, _return := some (.obj v) }

/-- `Runner._exec_return` (runner.py lines 328-340) after its expression
has been evaluated to `ret0` (a missing expression yields `Void()` before
this point).  If the function's `return_type` is unset: a value outside
the `Object` hierarchy goes through `wrap_py_type` (which raises, see
above), the type is inferred from the value and remembered on the shared
function object, and the value is checked and recorded.  Otherwise the
value is checked against the remembered type and recorded on success. -/
def exec_return_with (func : FuncObj) (ret0 : RVal) : Except Err FuncObj :=
  match func.return_type with
  | none =>
    match ret0 with
    | .obj v => inferReturn func v
    | .py p =>
      match wrap_py_type p with
      | .error e => .error e
      | .ok v => inferReturn func v
  | some t =>
    match t.type_check ret0 with
    | .error e => .error e
    | .ok _ => .ok { func with _return := some ret0 }

/-- Export-binding loop of `Runner._exec_std_import` (runner.py lines
281-286): each requested name is looked up on the module and bound into
the importing scope one at a time; a missing export raises
`StatementError` at that point, after the earlier names were already
bound.  The loop returns the scope as mutated so far next to the
optional error. -/
def importStdLoop (module : List (String × RVal)) (modname : String)
    (sc : Scope) : List String → Scope × Option Err
  | [] => (sc, none)
  | iport :: rest =>
    match lookupA module iport with
    | none => (sc, some (.stmtError (.failedImport iport modname)))
    | some v => importStdLoop module modname (sc.set_var iport v false) rest

/-- `Runner._exec_std_import` (runner.py lines 270-287): resolve the
module against the host namespace (`importlib.import_module`, modelled
from the spec's standard-library collaborator as a lookup in `Ctx`);
a missing module raises `StatementError`; otherwise run the
export-binding loop. -/
def exec_std_import (ctx : Ctx) (sc : Scope) (modname : String)
    (importing : List String) : Scope × Option Err :=
  match lookupA ctx.stdlib modname with
  | none => (sc, some (.stmtError (.moduleNotExist modname)))
  | some module => importStdLoop module modname sc importing

/-- Name-copying loop of `Runner._exec_local_import` (runner.py lines
295-301).  `newOpt` is what `Runner.open(...).run()` returned: `run` has
no `return` statement (its `return self` line is commented out), so it is
always `none` (Python `None`), and `new.get_current_scope()` raises
`AttributeError` — caught by the loop's `except Exception` and re-raised
as the `failed to import` `StatementError` for every requested name.  The
`some` branch is the behaviour a returned runner would give: look the
name up in the finished program's scope and copy it into the importing
scope. -/
def importLocalLoop (newOpt : Option Scope) (modname : String)
    (sc : Scope) : List String → Scope × Option Err
  | [] => (sc, none)
  | name :: rest =>
    match newOpt with
    | none => (sc, some (.stmtError (.failedImport name modname)))
    | some rootScope =>
      match rootScope.get_var name with
      | .error _ => (sc, some (.stmtError (.failedImport name modname)))
      | .ok v => importLocalLoop newOpt modname (sc.set_var name v false) rest

/-- Outcome of `e` seen by `except Exception as e: raise
StatementError(statement, str(e))` — the unconditional wrap inside
`Runner._exec_assignment` (a `StatementError` cause is wrapped again, as
the source does there).  `SystemExit` is not an `Exception` and passes
through; the embedding's fuel marker does too. -/
def asStatementError (e : Err) : Err :=
  if e.isExitCode || e == .fuelOut then e else .stmtError e

/-- Outcome of the statement boundary of `Runner.exec_module_body` (lines
230-233): an exception that is already a `StatementError` is re-raised
unchanged, any other `Exception` is wrapped with the offending statement.
`SystemExit` and the fuel marker pass through. -/
def wrapAtBoundary (e : Err) : Err :=
  if e.isStmtError || e.isExitCode || e == .fuelOut then e else .stmtError e

/-- Reassignment path of `Runner._exec_assignment` (runner.py lines
311-314 and 322-326) once the right-hand side has been evaluated: if the
identifier is not assigned anywhere in the chain (built-ins included) a
`variable ... is not defined` `StatementError` is raised; otherwise
`reassign_var` runs on the **current** scope and any exception it raises
is wrapped as a `StatementError`. -/
def exec_reassignment (sc : Scope) (identifier : String) (value : RVal) : Except Err Scope :=
  if sc.is_var_assigned identifier true then
    match sc.reassign_var identifier value with
    | .error e => .error (asStatementError e)
    | .ok sc2 => .ok sc2
  else
    .error (.stmtError (.notDefined identifier))

/-- Bind each formal parameter to the corresponding argument in a scope
(step 2 of the spec's invocation protocol), via `set_var`. -/
def bindParams (sc : Scope) (params : List String) (args : List RVal) : Scope :=
  (params.zip args).foldl (fun s pa => s.set_var pa.1 pa.2 false) sc

/-- One fuel level of the engine: every operation of the interpreter, as
a record so that the whole interpreter is a plain structural recursion on
fuel.  Each field embeds one routine; recursive and mutually recursive
calls go through the previous fuel level. -/
structure Interp where
  evalExpr : St → Scope → Expr → Except Err (St × RVal)
  evalArgs : St → Scope → List Expr → Except Err (St × List RVal)
  callFunction : St → Scope → Nat → List RVal → Except Err (St × RVal)
  exec_function_body : St → Scope → Nat → List Stmt → Except Err (St × Scope)
  exec_return : St → Scope → Nat → Option Expr → Except Err St
  exec_assignment : St → Scope → String → Bool → Option Tag → Expr → Bool → Except Err (St × Scope)
  execControl : St → Scope → Nat → Expr → List Stmt → Except Err (St × Scope)
  execTopStmt : St → Scope → Stmt → Except Err (St × Scope)
  exec_module_body : St → Scope → List Stmt → Except Err (St × Scope)
  exec_local_import : St → Scope → String → List String → Except Err (St × Scope)
  run : List Stmt → Except Err (Option Scope)

/-- The exhausted interpreter: every operation reports the fuel marker. -/
def interpZero : Interp where
  evalExpr := fun _ _ _ => .error .fuelOut
  evalArgs := fun _ _ _ => .error .fuelOut
  callFunction := fun _ _ _ _ => .error .fuelOut
  exec_function_body := fun _ _ _ _ => .error .fuelOut
  exec_return := fun _ _ _ _ => .error .fuelOut
  exec_assignment := fun _ _ _ _ _ _ _ => .error .fuelOut
  execControl := fun _ _ _ _ _ => .error .fuelOut
  execTopStmt := fun _ _ _ => .error .fuelOut
  exec_module_body := fun _ _ _ => .error .fuelOut
  exec_local_import := fun _ _ _ _ => .error .fuelOut
  run := fun _ => .error .fuelOut

/-- Modelled from the spec: expression evaluation (`eval` on the `vast`
node classes) lives in the parser/object collaborators, which are not
under src/.  Literals build the corresponding tagged objects; an
identifier resolves through the current scope chain (`Runner.get_var`
delegates to the active scope's `get_var`); binary arithmetic acts on
`Integer` objects and equality yields a `Boolean`; a call resolves the
callee through the scope, evaluates the arguments left to right and
enters the call protocol. -/
def exprEval (prev : Interp) (st : St) (sc : Scope) : Expr → Except Err (St × RVal)
  | .intLit n => .ok (st, .obj (.integer n))
  | .strLit s => .ok (st, .obj (.string s))
  | .boolLit b => .ok (st, .obj (.boolean b))
  | .ident name =>
    match sc.get_var name with
    | .error e => .error e
    | .ok v => .ok (st, v)
  | .bin op a b =>
    match prev.evalExpr st sc a with
    | .error e => .error e
    | .ok (st2, va) =>
      match prev.evalExpr st2 sc b with
      | .error e => .error e
      | .ok (st3, vb) =>
        match va, vb with
        | .obj (.integer x), .obj (.integer y) =>
          match op with
          | .add => .ok (st3, .obj (.integer (x + y)))
          | .sub => .ok (st3, .obj (.integer (x - y)))
          | .mul => .ok (st3, .obj (.integer (x * y)))
          | .eq => .ok (st3, .obj (.boolean (x == y)))
        | _, _ => .error (.pyTypeError "unsupported operand types")
  | .call fname args =>
    match sc.get_var fname with
    | .error e => .error e
    | .ok callee =>
      match prev.evalArgs st sc args with
      | .error e => .error e
      | .ok (st2, argVals) =>
        match callee with
        | .obj (.func fidx) => prev.callFunction st2 sc fidx argVals
        | _ => .error (.pyTypeError "object is not callable")

/-- Modelled from the spec: `objects.Function.__call__` is not under
src/.  Per the spec's invocation protocol it allocates a new scope whose
parent is the caller's active scope, binds the parameters, runs
`Runner.exec_function_body` over the body, and yields the recorded return
value (`Void` when no return executed); the return flag, return value and
inferred return type are the fields on the one shared function object
(the spec's design notes record this source behaviour), and the flag is
cleared at call entry so a later invocation can run at all. -/
def callProtocol (prev : Interp) (st : St) (sc : Scope) (fidx : Nat)
    (args : List RVal) : Except Err (St × RVal) :=
  match st.getFunc fidx with
  | none => .error (.pyTypeError "object is not callable")
  | some f =>
    if args.length == f.params.length then
      let callScope := bindParams (.mk [] [] (some sc)) f.params args
      let st1 := st.modifyFunc fidx (fun fo => { fo with _return_flag := false })
      match prev.exec_function_body st1 callScope fidx f.body with
      | .error e => .error e
      | .ok (st2, _) =>
        match st2.getFunc fidx with
        | none => .error (.pyTypeError "object is not callable")
        | some f2 => .ok (st2, f2._return.getD (.obj .void))
    else
      .error (.pyTypeError "wrong number of arguments")

/-- Modelled from the spec: `ast.Control.eval(self, func)` is not under
src/.  A conditional evaluates its condition to a `Boolean` object and,
when true, runs its body through `Runner.exec_function_body` in a fresh
child scope (nested blocks get an isolated namespace), so a `return`
inside the body sets the enclosing frame's state. -/
def controlEval (prev : Interp) (st : St) (sc : Scope) (fidx : Nat)
    (cond : Expr) (body : List Stmt) : Except Err (St × Scope) :=
  match prev.evalExpr st sc cond with
  | .error e => .error e
  | .ok (st2, c) =>
    match c with
    | .obj (.boolean b) =>
      if b then
        match prev.exec_function_body st2 (.mk [] [] (some sc)) fidx body with
        | .error e => .error e
        | .ok (st3, _) => .ok (st3, sc)
      else
        .ok (st2, sc)
    | _ => .error (.pyTypeError "condition is not a Boolean")

/-- One step of the interpreter: each field is the embedding of the
correspondingly named routine of runner.py (`exec_module_body`,
`exec_function_body`, `_exec_return`, `_exec_assignment`,
`_exec_local_import`, `run`), with the collaborator pieces supplied by
the modelled `exprEval`, `callProtocol` and `controlEval` above. -/
def interpStep (ctx : Ctx) (prev : Interp) : Interp where
  evalExpr := fun st sc e => exprEval prev st sc e
  evalArgs := fun st sc args =>
    match args with
    | [] => .ok (st, [])
    | a :: rest =>
      match prev.evalExpr st sc a with
      | .error e => .error e
      | .ok (st2, v) =>
        match prev.evalArgs st2 sc rest with
        | .error e => .error e
        | .ok (st3, vs) => .ok (st3, v :: vs)
  callFunction := fun st sc fidx args => callProtocol prev st sc fidx args
  exec_function_body := fun st sc fidx body =>
    -- Runner.exec_function_body (lines 235-254): no try/except around the
    -- statement dispatch; the loop stops as soon as func._return_flag is
    -- set; the runner's self.lineno counter is not modelled.
    match body with
    | [] => .ok (st, sc)
    | statement :: rest =>
      match st.getFunc fidx with
      | none => .error (.pyNameError "func")
      | some f =>
        if f._return_flag then .ok (st, sc)
        else
          match statement with
          | .assignment identifier constant tyAnn expression =>
            match prev.exec_assignment st sc identifier constant tyAnn expression false with
            | .error e => .error e
            | .ok (st2, sc2) => prev.exec_function_body st2 sc2 fidx rest
          | .reassignment identifier expression =>
            match prev.exec_assignment st sc identifier false none expression true with
            | .error e => .error e
            | .ok (st2, sc2) => prev.exec_function_body st2 sc2 fidx rest
          | .ret expr =>
            match prev.exec_return st sc fidx expr with
            | .error e => .error e
            | .ok st2 =>
              let st3 := st2.modifyFunc fidx (fun f2 => { f2 with _return_flag := true })
              prev.exec_function_body st3 sc fidx rest
          | .functionCall e =>
            match prev.evalExpr st sc e with
            | .error e2 => .error e2
            | .ok (st2, _) => prev.exec_function_body st2 sc fidx rest
          | .control cond cbody =>
            match prev.execControl st sc fidx cond cbody with
            | .error e => .error e
            | .ok (st2, sc2) => prev.exec_function_body st2 sc2 fidx rest
          | other => .error (.stmtError (.unexpectedStatement other.kindName))
  exec_return := fun st sc fidx expr =>
    -- Runner._exec_return (lines 328-340): evaluate the expression (or
    -- use Void), then the shared-function-object update of
    -- exec_return_with; no handler wraps errors here.
    match (match expr with
           | none => .ok (st, RVal.obj .void)
           | some e => prev.evalExpr st sc e : Except Err (St × RVal)) with
    | .error e => .error e
    | .ok (st2, ret0) =>
      match st2.getFunc fidx with
      | none => .error (.pyNameError "func")
      | some f =>
        match exec_return_with f ret0 with
        | .error e => .error e
        | .ok f2 => .ok (st2.modifyFunc fidx (fun _ => f2))
  exec_assignment := fun st sc identifier constant tyAnn expression reassign =>
    -- Runner._exec_assignment (lines 303-326).  The global_scope modifier
    -- is not carried by the modelled statements, so the target scope is
    -- the current one.  The expression evaluation and the final
    -- declare/reassign call are each wrapped `except Exception: raise
    -- StatementError(...)` (unconditionally); the annotation type-check
    -- between them is not wrapped.
    match prev.evalExpr st sc expression with
    | .error e => .error (asStatementError e)
    | .ok (st2, expr) =>
      if reassign then
        match exec_reassignment sc identifier expr with
        | .error e => .error e
        | .ok sc2 => .ok (st2, sc2)
      else
        match (match tyAnn with
               | some t => t.type_check expr
               | none => .ok ()) with
        | .error e => .error e
        | .ok _ => .ok (st2, sc.set_var identifier expr constant)
  execControl := fun st sc fidx cond body => controlEval prev st sc fidx cond body
  execTopStmt := fun st sc statement =>
    -- The dispatch inside Runner.exec_module_body's loop (lines 220-229),
    -- with Runner._exec_import's std/local split (lines 259-268) applied:
    -- import, declaration, reassignment and function declaration are the
    -- only statement kinds the top level accepts.
    match statement with
    | .importStd modname importing =>
      match exec_std_import ctx sc modname importing with
      | (_, some e) => .error e
      | (sc2, none) => .ok (st, sc2)
    | .importLocal modname importing => prev.exec_local_import st sc modname importing
    | .assignment identifier constant tyAnn expression =>
      prev.exec_assignment st sc identifier constant tyAnn expression false
    | .reassignment identifier expression =>
      prev.exec_assignment st sc identifier false none expression true
    | .function name params fbody =>
      -- Runner._exec_function_spawn (lines 342-344): evaluate the
      -- declaration to a fresh function object and bind it.
      let fidx := st.funcs.length
      let st2 : St := ⟨st.funcs ++ [⟨params, fbody, none, none, false⟩]⟩
      .ok (st2, sc.set_var name (.obj (.func fidx)) false)
    | other => .error (.stmtError (.unexpectedStatement other.kindName))
  exec_module_body := fun st sc stmts =>
    -- Runner.exec_module_body (lines 215-233): strictly sequential, each
    -- statement's execution wrapped by the statement boundary.
    match stmts with
    | [] => .ok (st, sc)
    | statement :: rest =>
      match prev.execTopStmt st sc statement with
      | .error e => .error (wrapAtBoundary e)
      | .ok (st2, sc2) => prev.exec_module_body st2 sc2 rest
  exec_local_import := fun st sc modname importing =>
    -- Runner._exec_local_import (lines 289-301): run the referenced file
    -- as an independent program (fresh runner), then copy each requested
    -- name; only FileNotFoundError is converted to a StatementError
    -- around the run, so a SystemExit from the inner program propagates.
    match lookupA ctx.files (modname ++ ".vi") with
    | none => .error (.stmtError (.moduleNotExist modname))
    | some prog =>
      match prev.run prog with
      | .error e => .error e
      | .ok newOpt =>
        match importLocalLoop newOpt modname sc importing with
        | (_, some e) => .error e
        | (sc2, none) => .ok (st, sc2)
  run := fun prog =>
    -- Runner.run (lines 135-199) for an already parsed program: execute
    -- the module body against a fresh root scope (a StatementError prints
    -- a diagnostic and exits 1; errors.Panic, not modelled, would exit
    -- 9); look up the entry point 'main' (missing: exit 1); synthesize
    -- argv as a one-element List holding the String "a"; invoke main in a
    -- fresh scope (any StatementError or other Exception: exit 1; a
    -- SystemExit from a nested import propagates).  The method body ends
    -- without a return statement — its `return self` line is commented
    -- out — so a completed run returns Python None.
    match prev.exec_module_body ⟨[]⟩ (.mk [] [] none) prog with
    | .error e => if e.isStmtError then .error (.exitCode 1) else .error e
    | .ok (st1, gl1) =>
      match gl1.get_var "main" with
      | .error _ => .error (.exitCode 1)
      | .ok mainv =>
        match mainv with
        | .obj (.func fidx) =>
          match prev.callFunction st1 (.mk [] [] (some gl1)) fidx
              [.obj (.list [.string "a"])] with
          | .error e => if e.isExitCode || e == .fuelOut then .error e else .error (.exitCode 1)
          | .ok _ => .ok none
        | _ => .error (.exitCode 1)

/-- The interpreter at a given fuel: plain structural recursion on the
fuel, so closed executions reduce definitionally. -/
def interp (ctx : Ctx) : Nat → Interp
  | 0 => interpZero
  | fuel + 1 => interpStep ctx (interp ctx fuel)

/-! Specification-side definitions: restatements of contracts in the
spec's words, to be compared with the code-side definitions above. -/

/-- Flattened view of a scope chain: the (mutable, const) dictionary pair
of each environment from the current one outwards. -/
def Scope.chain : Scope → List (List (String × RVal) × List (String × RVal))
  | .mk vars const_vars parent =>
    (vars, const_vars) ::
      (match parent with
       | some p => p.chain
       | none => [])

/-- First hit for an identifier along a flattened chain, trying each
environment's mutable dictionary before its const dictionary. -/
def chainFirst (identifier : String) :
    List (List (String × RVal) × List (String × RVal)) → Option RVal
  | [] => none
  | d :: rest =>
    match lookupA d.1 identifier with
    | some v => some v
    | none =>
      match lookupA d.2 identifier with
      | some v => some v
      | none => chainFirst identifier rest

/-- Lookup as the spec words it: built-in type names first; then the
nearest environment in the chain that binds the identifier (its mutable
dictionary before its const dictionary); an identifier bound nowhere and
not a built-in fails with the name error raised at the chain's root. -/
def lookupSpec (s : Scope) (identifier : String) : Except Err RVal :=
  match lookupA _STD_TYPES identifier with
  | some t => .ok (.obj (.typeObj t))
  | none =>
    match chainFirst identifier s.chain with
    | some v => .ok v
    | none => .error (.varNotFound identifier)

/-- Reassignment as the code behaves, stated as a case analysis on the
current environment alone: a const binding in the current environment
refuses with `CannotReassignConst`; a mutable binding in the current
environment is type-checked by class name and replaced in place; an
identifier visible only further out (ancestor binding or built-in type
name) hits the bare `self.vars[identifier]` subscript and raises
`KeyError`; an identifier visible nowhere raises the `not defined`
statement error.  Every failure is surfaced as a `StatementError`. -/
def reassignSpec (s : Scope) (identifier : String) (value : RVal) : Except Err Scope :=
  if (lookupA s.const_vars identifier).isSome then
    .error (.stmtError (.cannotReassignConst identifier))
  else
    match lookupA s.vars identifier with
    | some orig =>
      if value.className = orig.className then
        .ok (.mk (insertA s.vars identifier value) s.const_vars s.parent)
      else
        .error (.stmtError (.typeMismatch orig.className value.className))
    | none =>
      if s.is_var_assigned identifier true then
        .error (.stmtError (.keyError identifier))
      else
        .error (.stmtError (.notDefined identifier))

/-- The at-most-one-dictionary invariant of an environment: no identifier
is present in both the mutable and the const dictionary. -/
def ScopeInv (s : Scope) : Prop :=
  ∀ identifier, ¬((lookupA s.vars identifier).isSome ∧
                  (lookupA s.const_vars identifier).isSome)

/-- Scope obtained by binding, in order, every resolvable name of a list
of requested imports from a module's export table. -/
def bindAllStd (module : List (String × RVal)) (pre : List String) (sc : Scope) : Scope :=
  pre.foldl (fun s m =>
    match lookupA module m with
    | some v => s.set_var m v false
    | none => s) sc

/-! Concrete programs and states used by the closed evaluations below. -/

/-- Engine context with no std modules and no source files. -/
def emptyCtx : Ctx := ⟨[], []⟩

/-- Body of `f(n): if n == 0 { return 0 }; x = f(n - 1); return x + 1` —
a recursive function whose recursive call sits in a non-final statement,
so the enclosing body must keep executing after the inner call ends. -/
def leakBody : List Stmt :=
  [.control (.bin .eq (.ident "n") (.intLit 0)) [.ret (some (.intLit 0))],
   .assignment "x" false none (.call "f" [.bin .sub (.ident "n") (.intLit 1)]),
   .ret (some (.bin .add (.ident "x") (.intLit 1)))]

/-- Store holding `f` as function object 0. -/
def leakSt : St := ⟨[⟨["n"], leakBody, none, none, false⟩]⟩

/-- Scope binding the name `f` to function object 0. -/
def leakScope : Scope := .mk [("f", .obj (.func 0))] [] none

/-- Body of `fac(n): if n == 0 { return 1 }; return n * fac(n - 1)` —
the recursive factorial, whose recursive call sits inside the final
return expression. -/
def facBody : List Stmt :=
  [.control (.bin .eq (.ident "n") (.intLit 0)) [.ret (some (.intLit 1))],
   .ret (some (.bin .mul (.ident "n") (.call "fac" [.bin .sub (.ident "n") (.intLit 1)])))]

/-- Store holding `fac` as function object 0. -/
def facSt : St := ⟨[⟨["n"], facBody, none, none, false⟩]⟩

/-- Scope binding the name `fac` to function object 0. -/
def facScope : Scope := .mk [("fac", .obj (.func 0))] [] none

/-- Body of `g(b): if b { return "s" }; return 1`. -/
def gBody : List Stmt :=
  [.control (.ident "b") [.ret (some (.strLit "s"))],
   .ret (some (.intLit 1))]

/-- Store holding `g` as function object 0. -/
def gSt : St := ⟨[⟨["b"], gBody, none, none, false⟩]⟩

/-- Scope binding the name `g` to function object 0. -/
def gScope : Scope := .mk [("g", .obj (.func 0))] [] none

/-- First invocation of `g`, with `b = false`: the executed return yields
the Integer 1 and fixes Integer as g's inferred return type, remembered
on the shared function object in the store it returns. -/
def gFirstCall : Except Err (St × RVal) :=
  (interp emptyCtx 30).callFunction gSt gScope 0 [.obj (.boolean false)]

/-- Second invocation of `g` on the store the first invocation produced,
with `b = true`, so this invocation's executed return yields a String. -/
def gSecondCall : Except Err (St × RVal) :=
  match gFirstCall with
  | .error e => .error e
  | .ok (st2, _) => (interp emptyCtx 30).callFunction st2 gScope 0 [.obj (.boolean true)]

/-- Program of the file `foo.vi`: binds `x` at the top level and declares
the required entry point, so a run of it completes successfully. -/
def fooProg : List Stmt :=
  [.assignment "x" false none (.intLit 1),
   .function "main" ["argv"] [.ret (some (.intLit 0))]]

/-- Context whose file system holds `foo.vi`. -/
def fooCtx : Ctx := ⟨[], [("foo.vi", fooProg)]⟩

/-- A std-library module `sys` exporting only `argv`. -/
def sysModule : List (String × RVal) := [("argv", .py (.vlist []))]

/-- Context whose std namespace holds the `sys` module. -/
def sysCtx : Ctx := ⟨[("sys", sysModule)], []⟩

/-! Shared lemmas. -/

/-- Tag class names are pairwise distinct. -/
theorem Tag.name_injective (a b : Tag) (h : a.name = b.name) : a = b := by
  cases a <;> cases b <;> first | rfl | exact absurd h (by decide)

/-- Lookup in a dictionary after an insertion. -/
theorem lookupA_insertA {α : Type} (d : List (String × α)) (k : String) (v : α) (k2 : String) :
    lookupA (insertA d k v) k2 = if k = k2 then some v else lookupA d k2 := by
  induction d with
  | nil => simp [insertA, lookupA]
  | cons hd tl ih =>
    obtain ⟨a, b⟩ := hd
    by_cases hak : a = k
    · subst hak
      by_cases hk2 : a = k2 <;> simp [insertA, lookupA, hk2]
    · by_cases hk2 : a = k2
      · subst hk2
        have hka : ¬(k = a) := fun h => hak h.symm
        simp [insertA, lookupA, hak, hka]
      · simp [insertA, lookupA, hak, hk2, ih]

/-- `wrap_py_type` can only raise: `self` is bound neither among the
staticmethod's parameters nor among runner.py's module globals. -/
theorem wrap_py_type_raises (p : PyVal) : wrap_py_type p = .error (.pyNameError "self") := by
  have h : ¬("self" ∈ wrapPyTypeParams ∨ "self" ∈ runnerGlobalNames) := by decide
  unfold wrap_py_type
  rw [if_neg h]

/-- The statement boundary of `exec_module_body` only ever lets a
`StatementError`, a `SystemExit` or the fuel marker through. -/
theorem wrapAtBoundary_classified (e : Err) :
    (wrapAtBoundary e).isStmtError = true ∨ (wrapAtBoundary e).isExitCode = true ∨
      wrapAtBoundary e = .fuelOut := by
  cases e <;> simp [wrapAtBoundary, Err.isStmtError, Err.isExitCode, beq_iff_eq]

/-! Corroborating evaluations of the embedded engine. -/

/-- Factorial with the recursive call in tail position evaluates to 120
at 5: the shared return state happens to be overwritten in unwind order
when every recursive call sits inside a return expression. -/
theorem recursion_tail_position_ok :
    Except.map Prod.snd ((interp emptyCtx 60).callFunction facSt facScope 0 [.obj (.integer 5)])
      = .ok (.obj (.integer 120)) := rfl

/-- A completed `Runner.run` yields Python `None`: its `return self` line
is commented out, so the method falls off the end. -/
theorem run_of_foo_returns_none : (interp fooCtx 40).run fooProg = .ok none := rfl

/-! Claim theorems. -/

/-- Claim C1: recursive invocation does not in general yield the
mathematically correct result, because the return flag, return value and
inferred return type live on the one shared function object.  For
`f(n): if n == 0 { return 0 }; x = f(n - 1); return x + 1`, the inner
call `f(0)` sets the shared return flag, the resumed outer body sees it
and stops before its own return statement, and the call yields the inner
invocation's stale return value: `f(1)` evaluates to 0, not 1. -/
theorem c1_nested_call_overwrites_return_state :
    Except.map Prod.snd ((interp emptyCtx 30).callFunction leakSt leakScope 0 [.obj (.integer 1)])
      = .ok (.obj (.integer 0)) := rfl

/-- Claim C2, counterexample: with a mutable binding `x` owned by the
parent environment only, reassigning `x` from the child does not locate
and update the parent's binding — it raises `KeyError` on the child's own
mutable dictionary (surfaced as a `StatementError`), not the claimed
in-place replacement and not a `ConstViolationError`/`NameError`. -/
theorem c2_parent_binding_not_reassignable :
    exec_reassignment (.mk [] [] (some (.mk [("x", .obj (.integer 1))] [] none)))
        "x" (.obj (.integer 2))
      = .error (.stmtError (.keyError "x")) := rfl

/-- Claim C2, amended: reassignment consults only the current
environment's dictionaries.  A const binding in the current environment
refuses with `CannotReassignConst`; a mutable binding in the current
environment is type-checked against the existing value's class name and
replaced in place; an identifier visible only in an ancestor (or as a
built-in type name) raises `KeyError`; an identifier visible nowhere
raises the `not defined` statement error.  All failures surface as
`StatementError`s, and a failing reassignment returns no updated scope. -/
theorem c2_reassignment_current_scope_only (s : Scope) (identifier : String) (value : RVal) :
    exec_reassignment s identifier value = reassignSpec s identifier value := by
  obtain ⟨vars, const_vars, parent⟩ := s
  unfold exec_reassignment reassignSpec Scope.reassign_var typeIdCheck asStatementError
  simp only [Scope.vars, Scope.const_vars, Scope.parent]
  by_cases hc : (lookupA const_vars identifier).isSome = true
  · have hassigned : Scope.is_var_assigned (.mk vars const_vars parent) identifier true = true := by
      unfold Scope.is_var_assigned
      simp [hc]
    simp [hassigned, hc, Err.isExitCode, beq_iff_eq]
  · cases hv : lookupA vars identifier with
    | some orig =>
      have hassigned : Scope.is_var_assigned (.mk vars const_vars parent) identifier true = true := by
        unfold Scope.is_var_assigned
        simp [hv]
      by_cases heq : value.className = orig.className
      · simp [hassigned, hc, hv, heq]
      · simp [hassigned, hc, hv, heq, Err.isExitCode, beq_iff_eq]
    | none =>
      by_cases ha : Scope.is_var_assigned (.mk vars const_vars parent) identifier true = true
      · simp [ha, hc, hv, Err.isExitCode, beq_iff_eq]
      · simp [ha, hc, hv]

/-- Claim C3, counterexample: a standard-library import of
`argv, nope from sys`, where `sys` exports `argv` but not `nope`, fails —
and yet leaves `argv` bound in the importing environment, so a failed but
partially resolvable import is not free of side effects. -/
theorem c3_failed_import_partially_binds :
    (lookupA (exec_std_import sysCtx (.mk [] [] none) "sys" ["argv", "nope"]).1.vars
        "argv").isSome = true
    ∧ (exec_std_import sysCtx (.mk [] [] none) "sys" ["argv", "nope"]).2
        = some (.stmtError (.failedImport "nope" "sys")) := ⟨rfl, rfl⟩

/-- Claim C3, amended: a standard-library import binds its requested
names one at a time, so it is error-free when every name resolves, and on
the first unresolvable name it stops with the `failed to import`
statement error with every earlier (resolvable) name already bound; a
failed local-file import, by contrast, binds nothing, because it fails on
the very first requested name whenever the recursive run returned
`None`. -/
theorem c3_import_binds_prefix_before_failure :
    (∀ (module : List (String × RVal)) (modname : String) (sc : Scope) (names : List String),
       (∀ n ∈ names, (lookupA module n).isSome) →
       (importStdLoop module modname sc names).2 = none) ∧
    (∀ (module : List (String × RVal)) (modname : String) (sc : Scope)
       (pre : List String) (n : String) (post : List String),
       (∀ m ∈ pre, (lookupA module m).isSome) → lookupA module n = none →
       importStdLoop module modname sc (pre ++ n :: post)
         = (bindAllStd module pre sc, some (.stmtError (.failedImport n modname)))) ∧
    (∀ (modname : String) (sc : Scope) (name : String) (rest : List String),
       importLocalLoop none modname sc (name :: rest)
         = (sc, some (.stmtError (.failedImport name modname)))) := by
  refine ⟨?_, ?_, ?_⟩
  · intro module modname sc names h
    induction names generalizing sc with
    | nil => rfl
    | cons hd tl ih =>
      have hhd := h hd (by simp)
      obtain ⟨v, hv⟩ := Option.isSome_iff_exists.mp hhd
      simp only [importStdLoop, hv]
      exact ih _ (fun n hn => h n (by simp [hn]))
  · intro module modname sc pre n post hpre hn
    induction pre generalizing sc with
    | nil => simp [importStdLoop, hn, bindAllStd]
    | cons m pre' ih =>
      have hm := hpre m (by simp)
      obtain ⟨v, hv⟩ := Option.isSome_iff_exists.mp hm
      simp only [List.cons_append, importStdLoop, hv, bindAllStd, List.foldl_cons]
      exact ih _ (fun m2 hm2 => hpre m2 (by simp [hm2]))
  · intro modname sc name rest
    rfl

/-- Claim C4: `Runner.run` has no return statement (`return self` is
commented out), so `Runner.open(...).run()` is `None` and the name-copy
loop's `new.get_current_scope()` raises `AttributeError`, re-raised as
the `failed to import` statement error — even when, as here, `foo.vi`
exists, runs to completion, and binds the requested name `x` in its root
environment. -/
theorem c4_local_import_always_fails :
    (interp fooCtx 60).exec_local_import ⟨[]⟩ (.mk [] [] none) "foo" ["x"]
      = .error (.stmtError (.failedImport "x" "foo")) := rfl

/-- Claim C5, counterexample: inside a function body, a statement whose
execution raises (here a bare call to an undefined name) propagates the
raw `VarNotFound` — the function-body dispatcher installs no statement
boundary, so nothing re-wraps it into a `StatementError`. -/
theorem c5_function_body_error_unwrapped :
    (interp emptyCtx 5).exec_function_body leakSt leakScope 0 [.functionCall (.call "nosuch" [])]
      = .error (.varNotFound "nosuch")
    ∧ (Err.varNotFound "nosuch").isStmtError = false := ⟨rfl, rfl⟩

/-- Claim C5, amended: only the module-level dispatcher has a statement
boundary — whatever a top-level statement's execution raises,
`exec_module_body` surfaces as a `StatementError` (letting a `SystemExit`
or the fuel marker through unchanged); the function-body dispatcher wraps
nothing, and an exception from a function-body statement propagates as
raised, shown on a concrete return statement reading an undefined name. -/
theorem c5_wrapping_only_at_module_boundary :
    (∀ (ctx : Ctx) (fuel : Nat) (st : St) (sc : Scope) (stmts : List Stmt) (e : Err),
       (interp ctx fuel).exec_module_body st sc stmts = .error e →
       e.isStmtError = true ∨ e.isExitCode = true ∨ e = .fuelOut) ∧
    (interp emptyCtx 5).exec_function_body leakSt leakScope 0 [.ret (some (.ident "missing"))]
      = .error (.varNotFound "missing") := by
  constructor
  · intro ctx fuel
    induction fuel with
    | zero =>
      intro st sc stmts e h
      simp [interp, interpZero] at h
      exact Or.inr (Or.inr h.symm)
    | succ n ih =>
      intro st sc stmts e h
      cases stmts with
      | nil => simp [interp, interpStep] at h
      | cons stmt rest =>
        simp only [interp, interpStep] at h
        cases htop : (interp ctx n).execTopStmt st sc stmt with
        | error e2 =>
          rw [htop] at h
          simp only [] at h
          have he : wrapAtBoundary e2 = e := by
            exact Except.error.inj h
          rw [← he]
          exact wrapAtBoundary_classified e2
        | ok p =>
          obtain ⟨st2, sc2⟩ := p
          rw [htop] at h
          exact ih st2 sc2 rest e h
  · rfl

/-- Claim C6: identifier lookup resolves the fixed built-in type names
first, then the current environment's mutable bindings, then its const
bindings, and on a miss delegates to the parent; an identifier bound in
no reachable environment that is not a built-in fails with `VarNotFound`,
raised at the parentless root: `get_var` coincides with the spec-side
flattened-chain lookup. -/
theorem c6_lookup_order : ∀ (s : Scope) (identifier : String),
    s.get_var identifier = lookupSpec s identifier
  | .mk vars const_vars parent, identifier => by
    cases parent with
    | none =>
      rw [Scope.get_var.eq_2]
      unfold lookupSpec
      rw [Scope.chain.eq_2]
      cases hstd : lookupA _STD_TYPES identifier with
      | some t => simp [hstd]
      | none =>
        cases hv : lookupA vars identifier with
        | some v => simp [hstd, hv, chainFirst]
        | none =>
          cases hcv : lookupA const_vars identifier with
          | some v => simp [hstd, hv, hcv, chainFirst]
          | none => simp [hstd, hv, hcv, chainFirst]
    | some p =>
      rw [Scope.get_var.eq_1]
      unfold lookupSpec
      rw [Scope.chain.eq_1]
      cases hstd : lookupA _STD_TYPES identifier with
      | some t => simp [hstd]
      | none =>
        cases hv : lookupA vars identifier with
        | some v => simp [hstd, hv, chainFirst]
        | none =>
          cases hcv : lookupA const_vars identifier with
          | some v => simp [hstd, hv, hcv, chainFirst]
          | none =>
            simp only [chainFirst, hstd, hv, hcv]
            have hrec := c6_lookup_order p identifier
            rw [hrec]
            unfold lookupSpec
            rw [hstd]

/-- Claim C7: reassigning a mutable binding of the current environment
with a value whose type tag differs from the current value's fails with
the type mismatch error (provided no const binding of the same name
interferes), and — since the raise happens strictly before the update —
no updated scope is produced, so the binding keeps its previous value. -/
theorem c7_reassign_type_mismatch_atomic (s : Scope) (identifier : String)
    (vo vv : Value)
    (hconst : lookupA s.const_vars identifier = none)
    (horig : lookupA s.vars identifier = some (.obj vo))
    (hne : vv.getType ≠ vo.getType) :
    s.reassign_var identifier (.obj vv)
      = .error (.typeMismatch vo.className vv.className) := by
  obtain ⟨vars, const_vars, parent⟩ := s
  simp only [Scope.vars, Scope.const_vars] at hconst horig
  unfold Scope.reassign_var typeIdCheck
  have hnc : ¬(vv.className = vo.className) := by
    intro h
    exact hne (Tag.name_injective _ _ h)
  simp [hconst, horig, hnc, RVal.className]

/-- Claim C7 witness: reassigning the Integer binding `x` with a String
value fails with the mismatch error. -/
theorem c7_witness :
    (Scope.mk [("x", .obj (.integer 1))] [] none).reassign_var "x" (.obj (.string "a"))
      = .error (.typeMismatch "Integer" "String") :=
  c7_reassign_type_mismatch_atomic (.mk [("x", .obj (.integer 1))] [] none) "x"
    (.integer 1) (.string "a") rfl rfl (by decide)

/-- Claim C8: the first executed return fixes the function's return type
from its value's tag and records the value; any later executed return
whose value carries a different tag fails with the type mismatch error —
including returns in a different later invocation of the same function,
since the remembered type lives on the shared function object: the
closed second invocation of `g` fails after the first inferred Integer. -/
theorem c8_return_type_inferred_then_enforced :
    (∀ (f : FuncObj) (v : Value), f.return_type = none →
       exec_return_with f (.obj v)
         = .ok { f with return_type := some v.getType, _return := some (.obj v) }) ∧
    (∀ (f : FuncObj) (t : Tag) (v : Value), f.return_type = some t → v.getType ≠ t →
       exec_return_with f (.obj v) = .error (.typeMismatch t.name v.className)) ∧
    gSecondCall = .error (.typeMismatch "Integer" "String") := by
  refine ⟨?_, ?_, rfl⟩
  · intro f v h
    unfold exec_return_with inferReturn Tag.type_check
    rw [h]
    simp
  · intro f t v h hne
    unfold exec_return_with Tag.type_check
    rw [h]
    simp [hne]

/-- Claim C9, counterexample: declaring `x` mutable and then declaring
`x` const in the same environment leaves `x` present in both the mutable
and the const dictionary — `set_var` never removes the identifier from
the other dictionary — so the at-most-one invariant fails. -/
theorem c9_both_maps_counterexample :
    (lookupA (((Scope.mk [] [] none).set_var "x" (.obj (.integer 1)) false).set_var "x"
        (.obj (.string "a")) true).vars "x").isSome = true
    ∧ (lookupA (((Scope.mk [] [] none).set_var "x" (.obj (.integer 1)) false).set_var "x"
        (.obj (.string "a")) true).const_vars "x").isSome = true := ⟨rfl, rfl⟩

/-- Claim C9, amended: `set_var` inserts into the dictionary the const
flag selects without removing the identifier from the other dictionary,
so declaring the same identifier under both mutabilities breaks the
at-most-one invariant; the invariant is preserved whenever the
identifier is not already bound with the other mutability in that
environment. -/
theorem c9_invariant_preserved_when_kinds_disjoint (s : Scope) (identifier : String)
    (v : RVal) (c : Bool) (hinv : ScopeInv s)
    (hmut : c = true → lookupA s.vars identifier = none)
    (hconst : c = false → lookupA s.const_vars identifier = none) :
    ScopeInv (s.set_var identifier v c) := by
  obtain ⟨vars, const_vars, parent⟩ := s
  simp only [Scope.vars, Scope.const_vars] at hmut hconst
  cases c with
  | false =>
    have hcn := hconst rfl
    have hgoal : ScopeInv (.mk (insertA vars identifier v) const_vars parent) := by
      intro id2 hboth
      obtain ⟨h1, h2⟩ := hboth
      simp only [Scope.vars] at h1
      simp only [Scope.const_vars] at h2
      rw [lookupA_insertA] at h1
      by_cases hid : identifier = id2
      · subst hid
        rw [hcn] at h2
        simp at h2
      · rw [if_neg hid] at h1
        exact hinv id2 ⟨h1, h2⟩
    exact hgoal
  | true =>
    have hvn := hmut rfl
    have hgoal : ScopeInv (.mk vars (insertA const_vars identifier v) parent) := by
      intro id2 hboth
      obtain ⟨h1, h2⟩ := hboth
      simp only [Scope.vars] at h1
      simp only [Scope.const_vars] at h2
      rw [lookupA_insertA] at h2
      by_cases hid : identifier = id2
      · subst hid
        rw [hvn] at h1
        simp at h1
      · rw [if_neg hid] at h2
        exact hinv id2 ⟨h1, h2⟩
    exact hgoal

/-- Claim C9 witness: a fresh const declaration in an empty environment
preserves the at-most-one invariant. -/
theorem c9_witness :
    ScopeInv ((Scope.mk [] [] none).set_var "x" (.obj (.integer 1)) true) :=
  c9_invariant_preserved_when_kinds_disjoint (.mk [] [] none) "x" (.obj (.integer 1)) true
    (fun id2 h => by simp [Scope.vars, lookupA] at h)
    (fun _ => rfl) (fun h => nomatch h)

/-- Claim C10: an executed return whose evaluated value is host-native
(not an instance of the `Object` hierarchy), in a function whose return
type is not yet inferred, goes through `wrap_py_type`, whose staticmethod
body references the undefined name `self`; the return raises `NameError`
and never completes normally. -/
theorem c10_wrap_py_type_name_error (f : FuncObj) (p : PyVal)
    (h : f.return_type = none) :
    exec_return_with f (.py p) = .error (.pyNameError "self") := by
  unfold exec_return_with
  rw [h]
  simp [wrap_py_type_raises]

/-- Claim C10 witness: returning the host-native integer 3 from a
function with no inferred return type raises the `NameError`. -/
theorem c10_witness :
    exec_return_with ⟨[], [], none, none, false⟩ (.py (.vint 3))
      = .error (.pyNameError "self") :=
  c10_wrap_py_type_name_error ⟨[], [], none, none, false⟩ (.vint 3) rfl

end Violet
